import Mathlib

/-!
Verification of `src/streamlit_app.py` (YouTube trending viewer).

The Python source is shallowly embedded below: pure fragments become Lean
functions; the network, the bcrypt hasher and the `streamlit_authenticator`
login verdict are passed in as explicit parameters; the Streamlit script run
(which `st.stop()` can halt) becomes a function returning the final outcome
and the resulting credential-file state.
-/

/-! ## Small Python-semantics helpers -/

/-- Whitespace characters stripped by Python `str.strip()` (the ones relevant
to this app's inputs). -/
def isSpaceChar (c : Char) : Bool :=
  c = ' ' || c = '\t' || c = '\n' || c = '\r'

/-- `str.strip()` on a character list. -/
def trimList (cs : List Char) : List Char :=
  ((cs.dropWhile isSpaceChar).reverse.dropWhile isSpaceChar).reverse

/-- Numeric value of a digit string. -/
def digitsToNat (cs : List Char) : Nat :=
  cs.foldl (fun acc c => acc * 10 + (c.toNat - '0'.toNat)) 0

/-- Models Python `int(s)` on a string: optional surrounding whitespace,
optional sign, then decimal digits; any other shape raises, modelled `none`. -/
def parseIntPy (s : String) : Option Int :=
  match trimList s.toList with
  | [] => none
  | '-' :: rest =>
      if rest ≠ [] ∧ rest.all Char.isDigit then some (-(digitsToNat rest : Int)) else none
  | '+' :: rest =>
      if rest ≠ [] ∧ rest.all Char.isDigit then some (digitsToNat rest : Int) else none
  | l =>
      if l.all Char.isDigit then some (digitsToNat l : Int) else none

/-- Insert thousands separators walking a reversed digit list in groups of 3. -/
def commaGroupAux : List Char → List Char
  | a :: b :: c :: d :: rest => a :: b :: c :: ',' :: commaGroupAux (d :: rest)
  | l => l

/-- Thousands grouping of a digit string, as Python format spec `,` does. -/
def commaGroup (s : String) : String :=
  String.mk (commaGroupAux s.toList.reverse).reverse

/-- Models the Python f-string `f"{n:,}"` for an int `n`. -/
def formatComma (n : Int) : String :=
  (if n < 0 then "-" else "") ++ commaGroup (toString n.natAbs)

/-- Python truthiness of an optional string (`None` and `""` are falsy). -/
def pyTruthyS (o : Option String) : Bool :=
  match o with
  | some s => s ≠ ""
  | none => false

/-- Python `a or b` on optional strings: `b` when `a` is falsy. -/
def pyOrS (a b : Option String) : Option String :=
  if pyTruthyS a then a else b

/-! ## Data model of the upstream API payloads (section 6 of the spec)

One trending item of the `videos` response: `id`, `snippet.{title,
channelTitle, channelId, thumbnails.{default,medium,high}.url}`,
`statistics.{viewCount, likeCount, commentCount}`.  Every leaf is optional:
`none` stands for a missing key (the code reads each with `.get`). -/

/-- Thumbnail URLs of one item; each field is `thumbnails.get(size, {}).get("url")`. -/
structure Thumbs where
  medium : Option String
  high : Option String
  default : Option String
deriving DecidableEq, Repr

/-- `snippet` of one trending item. -/
structure Snippet where
  title : Option String
  channelTitle : Option String
  channelId : Option String
  thumbnails : Thumbs
deriving DecidableEq, Repr

/-- `statistics` of one trending item (YouTube returns these as strings). -/
structure Statistics where
  viewCount : Option String
  likeCount : Option String
  commentCount : Option String
deriving DecidableEq, Repr

/-- One element of the trending `items[]` array. -/
structure Item where
  id : Option String
  snippet : Snippet
  statistics : Statistics
deriving DecidableEq, Repr

/-- One element of the channels endpoint's `items[]` array, as used by
`get_channel_stats`: `id` and `statistics.subscriberCount`. -/
structure ChanItem where
  id : Option String
  subscriberCount : Option String
deriving DecidableEq, Repr

/-- The channel-stats mapping `dict[channelId] -> {"subscriberCount": int | None}`,
as an insertion-ordered association list keyed by channel id. -/
abbrev StatsMap := List (String × Option Int)

/-- Dict lookup `cid in m` / `m[cid]` on the association list. -/
def assocLookup (m : StatsMap) (k : String) : Option (Option Int) :=
  (m.find? (fun p => p.1 = k)).map (fun p => p.2)

/-- Dict assignment `m[k] = v` (overwrite in place, else append). -/
def dictInsert (m : StatsMap) (k : String) (v : Option Int) : StatsMap :=
  if m.any (fun p => p.1 = k) then m.map (fun p => if p.1 = k then (k, v) else p)
  else m ++ [(k, v)]

/-! ## `get_channel_stats` (src/streamlit_app.py lines 54-88)

The HTTP layer is abstracted into a parameter `net` mapping the `id`
parameter of the outbound request to the parsed `items[]` of the response.
The returned triple is (result mapping, number of outbound requests, the
`id` parameter of the request if one was made). -/

/-- Python truthiness filter and first-seen dedup,
`list(dict.fromkeys([cid for cid in channel_ids if cid]))`:
`dict.fromkeys` inserts each key once, keeping insertion (= first-seen) order. -/
def insertIfAbsent (acc : List String) (cid : String) : List String :=
  if cid ∈ acc then acc else acc ++ [cid]

/-- `unique_ids` as computed at line 62. -/
def uniqueIds (channel_ids : List String) : List String :=
  (channel_ids.filter (fun cid => cid ≠ "")).foldl insertIfAbsent []

/-- Reference form of first-occurrence deduplication: keep the head, drop its
later duplicates, recurse.  `uniqueIds` is proved equal to this below. -/
def dedupFirst : List String → List String
  | [] => []
  | x :: xs => x :: dedupFirst (xs.filter (fun c => c ≠ x))
termination_by l => l.length
decreasing_by
  simp_wf
  have := List.length_filter_le (fun c => !decide (c = x)) xs
  omega

/-- `int(sub) if sub is not None else None`, with a failed parse caught to `None`. -/
def parseSubscriber (sub : Option String) : Option Int :=
  match sub with
  | none => none
  | some v => parseIntPy v

/-- `get_channel_stats`: empty input short-circuits to `{}` with no request;
otherwise one request is made with the comma-joined deduplicated ids and the
response items are folded into the result dict.  Items whose `id` is absent
are skipped here (Python would store them under key `None`, which the render
loop, keying only by truthy channel ids, can never observe). -/
def get_channel_stats (net : String → List ChanItem) (channel_ids : List String) :
    StatsMap × Nat × Option String :=
  if channel_ids.isEmpty then ([], 0, none)
  else
    let idParam := String.intercalate "," (uniqueIds channel_ids)
    let items := net idParam
    (items.foldl
      (fun m it =>
        match it.id with
        | some cid => dictInsert m cid (parseSubscriber it.subscriberCount)
        | none => m) [],
     1, some idParam)

/-! ## The module-level render loop (src/streamlit_app.py lines 347-392) -/

/-- What one list entry renders: the formatted strings of lines 390-392 and
the thumbnail image (if any) of lines 386-388. -/
structure Row where
  title : String
  channel : String
  views : String
  likes : String
  comments : String
  subs : String
  thumb : Option String
deriving DecidableEq, Repr

/-- `snippet.get("title", "(제목 없음)")`. -/
def titleOf (s : Snippet) : String := s.title.getD "(제목 없음)"

/-- `snippet.get("channelTitle", "(채널 정보 없음)")`. -/
def channelOf (s : Snippet) : String := s.channelTitle.getD "(채널 정보 없음)"

/-- The `or`-chain of lines 355-359 selecting `thumb_url`. -/
def thumbUrlOf (t : Thumbs) : Option String :=
  pyOrS t.medium (pyOrS t.high t.default)

/-- Lines 386-388: the image is drawn only `if thumb_url:` (truthy). -/
def renderedThumb (t : Thumbs) : Option String :=
  if pyTruthyS (thumbUrlOf t) then thumbUrlOf t else none

/-- Lines 360, 363-366: `views = stats.get("viewCount", "0")`, formatted with
grouping when it parses as an int, else rendered raw. -/
def viewsFmt (st : Statistics) : String :=
  let views := st.viewCount.getD "0"
  match parseIntPy views with
  | some n => formatComma n ++ "회"
  | none => views ++ "회"

/-- Lines 361, 367-370: absent like count renders "-", a parse failure
renders the raw value. -/
def likesFmt (st : Statistics) : String :=
  match st.likeCount with
  | none => "-"
  | some l =>
    match parseIntPy l with
    | some n => formatComma n ++ "개"
    | none => l ++ "개"

/-- Lines 362, 371-374: absent comment count renders "-", a parse failure
renders the raw value. -/
def commentsFmt (st : Statistics) : String :=
  match st.commentCount with
  | none => "-"
  | some c =>
    match parseIntPy c with
    | some n => formatComma n ++ "개"
    | none => c ++ "개"

/-- Lines 376-380: `subs_fmt` is "-" unless the channel id is truthy, present
in the stats map, and its subscriber count is an int. -/
def subsFmt (channelId : Option String) (m : StatsMap) : String :=
  match channelId with
  | some cid =>
    if cid ≠ "" then
      match assocLookup m cid with
      | some (some n) => formatComma n ++ "명"
      | some none => "-"
      | none => "-"
    else "-"
  | none => "-"

/-- One iteration of the render loop (lines 347-392) for one item. -/
def renderRow (m : StatsMap) (item : Item) : Row :=
  { title := titleOf item.snippet
    channel := channelOf item.snippet
    views := viewsFmt item.statistics
    likes := likesFmt item.statistics
    comments := commentsFmt item.statistics
    subs := subsFmt item.snippet.channelId m
    thumb := renderedThumb item.snippet.thumbnails }

/-- The whole loop: one row per fetched item, in order. -/
def renderPage (items : List Item) (m : StatsMap) : List Row :=
  items.map (renderRow m)

/-- Lines 340-344: the channel-stats fetch is guarded by try/except; on
failure the map falls back to `{}` and a warning is shown (second component). -/
def channelStatsGuard (r : Except String StatsMap) : StatsMap × Bool :=
  match r with
  | .ok m => (m, false)
  | .error _ => ([], true)

/-- An item with every payload field absent, for concrete evaluations. -/
def emptyItem : Item := ⟨none, ⟨none, none, none, ⟨none, none, none⟩⟩, ⟨none, none, none⟩⟩

/-! ## The fetch cache

Modelled from the spec: the TTL memoization applied by the
`@st.cache_data(ttl=60 * 10)` decorators (lines 32 and 54) lives in the
Streamlit library, outside this repository.  Per the spec's design note it is
an explicit map `key -> (value, timestamp)` with
`isValid(entry, now) = now - entry.timestamp < TTL`; an expired or absent
entry causes exactly one outbound call whose result is stored with a fresh
timestamp.  The refresh handler (lines 304-313) clears both caches
unconditionally; that part is in the source. -/

/-- A memo table for one cached function: key, cached value, fetch timestamp. -/
abbrev Cache (V : Type) := List (String × V × Nat)

/-- Cache lookup by key. -/
def cacheLookup {V : Type} (st : Cache V) (key : String) : Option (V × Nat) :=
  (st.find? (fun e => e.1 = key)).map (fun e => e.2)

/-- Store a freshly fetched value under `key`, replacing any stale entry. -/
def cacheStore {V : Type} (st : Cache V) (key : String) (v : V) (now : Nat) : Cache V :=
  (key, v, now) :: st.filter (fun e => e.1 ≠ key)

/-- The TTL of both decorators: `60 * 10` seconds. -/
def TTL_SECONDS : Nat := 60 * 10

/-- Modelled from the spec: one call through the TTL memo wrapper.  Returns
the value, the new cache state, and the number of outbound requests (0 or 1)
this call performed. -/
def cachedFetch {V : Type} (ttl : Nat) (net : String → V) (st : Cache V)
    (key : String) (now : Nat) : V × Cache V × Nat :=
  match cacheLookup st key with
  | some (v, ts) =>
    if now - ts < ttl then (v, st, 0)
    else (net key, cacheStore st key (net key) now, 1)
  | none => (net key, cacheStore st key (net key) now, 1)

/-- The refresh button handler (lines 304-313): clears the
`get_trending_videos` cache and the `get_channel_stats` cache, regardless of
any TTL state. -/
def refreshCaches {V W : Type} (_trendCache : Cache V) (_statsCache : Cache W) :
    Cache V × Cache W :=
  ([], [])

/-! ## Credential file and the plaintext-password migration
(src/streamlit_app.py lines 146-192) -/

/-- One `credentials.usernames.<username>` record of `secrets.toml`;
`password` is `info.get("password")`. -/
structure UserRec where
  name : String
  email : String
  password : Option String
deriving DecidableEq, Repr

/-- The parsed `secrets.toml` contents the admin/migration code touches:
`credentials.usernames` (insertion-ordered) and the top-level `ADMIN_USERS`. -/
structure SecretsFile where
  usernames : List (String × UserRec)
  ADMIN_USERS : List String
deriving DecidableEq, Repr

/-- `_is_bcrypt_hash` (lines 169-170): `value.startswith("$2b$")`, as a
prefix test on the character list. -/
def isBcryptHash (value : String) : Bool :=
  "$2b$".toList.isPrefixOf value.toList

/-- The per-user body of the migration loop (lines 179-187): a truthy
password not in bcrypt form is rehashed in place; the flag reports whether
this record changed.  The bcrypt hasher (`stauth.Hasher`) is external and is
passed in as `hash`. -/
def migrateUser (hash : String → String) (info : UserRec) : UserRec × Bool :=
  match info.password with
  | some pwd =>
    if pwd ≠ "" ∧ isBcryptHash pwd = false then
      ({ info with password := some (hash pwd) }, true)
    else (info, false)
  | none => (info, false)

/-- The loop of `_migrate_plain_passwords` over all user records, returning
the updated store and whether anything `changed`. -/
def migrateStore (hash : String → String) (d : SecretsFile) : SecretsFile × Bool :=
  let migrated := d.usernames.map (fun p => (p.1, migrateUser hash p.2))
  ({ d with usernames := migrated.map (fun p => (p.1, p.2.1)) },
   migrated.any (fun p => p.2.2))

/-- `_migrate_plain_passwords` (lines 172-189): an unreadable file
(`_read_secrets_file` returning `None`) aborts; otherwise the store is
rewritten (`_write_secrets_file`) only `if changed`.  The second component
reports whether a write was performed. -/
def migratePlainPasswords (hash : String → String) (data : Option SecretsFile) :
    Option SecretsFile × Bool :=
  match data with
  | none => (none, false)
  | some d =>
    let r := migrateStore hash d
    if r.2 then (some r.1, true) else (some d, false)

/-! ## Auth gate (`ensure_authenticated`, src/streamlit_app.py lines 97-143) -/

/-- A value read from `st.secrets`, as far as `_to_bool` distinguishes. -/
inductive PyVal where
  | pyBool : Bool → PyVal
  | pyStr : String → PyVal
  | pyOther : PyVal
deriving DecidableEq, Repr

/-- Lowercased, stripped form of a string (`val.strip().lower()` for the
ASCII values `_to_bool` compares against). -/
def lowerTrim (s : String) : String :=
  String.mk ((trimList s.toList).map Char.toLower)

/-- `_to_bool` (lines 97-102). -/
def toBool (val : PyVal) (dflt : Bool) : Bool :=
  match val with
  | .pyBool b => b
  | .pyStr s => ["1", "true", "yes", "y", "on"].contains (lowerTrim s)
  | .pyOther => dflt

/-- The `credentials` entry of `st.secrets`: its `usernames` table when the
key is present.  A bare empty table (`usernames = none`) is an empty dict,
hence falsy in Python. -/
structure CredDict where
  usernames : Option (List (String × UserRec))
deriving DecidableEq, Repr

/-- The runtime `st.secrets` keys `ensure_authenticated` consults. -/
structure Secrets where
  AUTH_ENABLED : Option PyVal
  credentials : Option CredDict
deriving DecidableEq, Repr

/-- `auth_enabled` (line 105): `_to_bool(secrets.get("AUTH_ENABLED", False))`. -/
def authEnabled (s : Secrets) : Bool :=
  toBool (s.AUTH_ENABLED.getD (.pyBool false)) false

/-- `if not creds:` (line 110): the `credentials` key is absent, or its value
is an empty dict. -/
def credsFalsy (s : Secrets) : Bool :=
  match s.credentials with
  | none => true
  | some cd => cd.usernames.isNone

/-- The verdict of `authenticator.login` (external `streamlit_authenticator`
library): `False` for wrong credentials, `None` before any submission,
or a successful (name, username) pair. -/
inductive LoginStatus where
  | failed
  | pending
  | success : String → String → LoginStatus
deriving DecidableEq, Repr

/-- How a script run ends at the auth gate: anonymous pass-through (auth
disabled), one of the three `st.stop()` halts with their visible message,
or an authenticated session. -/
inductive SessionResult where
  | anonymous
  | haltedConfig : String → SessionResult
  | haltedAuthError : String → SessionResult
  | haltedAwaiting : String → SessionResult
  | authed : String → String → SessionResult
deriving DecidableEq, Repr

/-- `st.error` message of line 111. -/
def configErrorMsg : String := "인증이 활성화되어 있지만 credentials가 secrets에 없습니다."

/-- `st.error` message of line 131. -/
def authErrorMsg : String := "아이디 또는 비밀번호가 올바르지 않습니다."

/-- `st.info` message of line 134. -/
def loginInfoMsg : String := "로그인 해주세요."

/-- `ensure_authenticated` (lines 104-140).  The second component records
whether the login form was presented (`authenticator.login` reached). -/
def ensure_authenticated (s : Secrets) (login : LoginStatus) : SessionResult × Bool :=
  if authEnabled s = false then (.anonymous, false)
  else if credsFalsy s = true then (.haltedConfig configErrorMsg, false)
  else
    match login with
    | .failed => (.haltedAuthError authErrorMsg, true)
    | .pending => (.haltedAwaiting loginInfoMsg, true)
    | .success n u => (.authed n u, true)

/-- The top of the script run (lines 142-192): `ensure_authenticated()` runs
first; an `st.stop()` inside it ends the run before
`_migrate_plain_passwords()` can touch the credential file.  Returns the
session result, whether the login form was shown, the final credential-file
contents, and how many file writes happened. -/
def runScript (s : Secrets) (login : LoginStatus) (file : Option SecretsFile)
    (hash : String → String) : SessionResult × Bool × Option SecretsFile × Nat :=
  match ensure_authenticated s login with
  | (.haltedConfig m, shown) => (.haltedConfig m, shown, file, 0)
  | (.haltedAuthError m, shown) => (.haltedAuthError m, shown, file, 0)
  | (.haltedAwaiting m, shown) => (.haltedAwaiting m, shown, file, 0)
  | (res, shown) =>
    let r := migratePlainPasswords hash file
    (res, shown, r.1, if r.2 then 1 else 0)

/-! ## Admin gate (`_is_admin` / `_admin_console`, lines 194-212) -/

/-- `_is_admin` (lines 194-202): falsy username is never admin; otherwise
membership in the configured `ADMIN_USERS` allow-list, or equality with the
hard-coded username `"kkang09"`. -/
def is_admin (adminUsers : List String) (username : Option String) : Bool :=
  match username with
  | none => false
  | some u => if u = "" then false else (adminUsers.contains u || u = "kkang09")

/-- `_admin_console` (lines 204-212) draws the console exactly when
`_is_admin` holds (line 205 returns early otherwise). -/
def adminConsoleRendered (adminUsers : List String) (username : Option String) : Bool :=
  is_admin adminUsers username

/-- An item whose numeric statistics are non-numeric strings, for concrete
evaluations. -/
def rawStatsItem : Item :=
  ⟨some "vid1", ⟨some "t", some "ch", some "ch1", ⟨none, none, none⟩⟩,
   ⟨some "12a", some "x1", some "x2"⟩⟩

/-- A secrets configuration with auth enabled and a populated credential
store, for concrete evaluations. -/
def sampleSecrets : Secrets :=
  ⟨some (.pyStr "true"), some ⟨some [("bob", ⟨"Bob", "bob@x.com", some "$2b$12$abc"⟩)]⟩⟩

/-- An already-migrated credential file (every password in bcrypt form). -/
def migratedFile : SecretsFile :=
  ⟨[("alice", ⟨"Alice", "alice@x.com", some "$2b$12$somesalthash"⟩)], ["alice"]⟩

/-! ## Lemmas about first-occurrence deduplication -/

lemma foldl_insertIfAbsent (l : List String) : ∀ acc : List String,
    l.foldl insertIfAbsent acc = acc ++ dedupFirst (l.filter (fun c => c ∉ acc)) := by
  induction l with
  | nil => intro acc; simp [dedupFirst]
  | cons x xs ih =>
    intro acc
    by_cases hx : x ∈ acc
    · have h1 : insertIfAbsent acc x = acc := if_pos hx
      simp only [List.foldl_cons, h1, ih, List.filter_cons]
      simp [hx]
    · have h1 : insertIfAbsent acc x = acc ++ [x] := if_neg hx
      simp only [List.foldl_cons, h1, ih, List.filter_cons]
      have hdec : decide (x ∉ acc) = true := by simp [hx]
      rw [hdec]
      simp only [if_true]
      rw [dedupFirst]
      have hff : (xs.filter (fun c => decide (c ∉ acc))).filter (fun c => decide (c ≠ x))
          = xs.filter (fun c => decide (c ∉ acc ++ [x])) := by
        rw [List.filter_filter]
        apply List.filter_congr
        intro c _
        simp [List.mem_append, not_or, and_comm]
      rw [hff]
      simp [List.append_assoc]

lemma mem_dedupFirst : ∀ (l : List String) (a : String), a ∈ dedupFirst l ↔ a ∈ l := by
  intro l
  induction l using dedupFirst.induct with
  | case1 => intro a; simp [dedupFirst]
  | case2 x xs ih =>
    intro a
    rw [dedupFirst]
    simp only [ne_eq, decide_not] at ih
    by_cases hax : a = x
    · subst hax; simp
    · simp [ih, List.mem_filter, hax]

lemma nodup_dedupFirst : ∀ l : List String, (dedupFirst l).Nodup := by
  intro l
  induction l using dedupFirst.induct with
  | case1 => simp [dedupFirst]
  | case2 x xs ih =>
    rw [dedupFirst]
    refine List.Pairwise.cons ?_ ih
    intro b hb
    have hbmem := (mem_dedupFirst _ b).mp hb
    have hbx : b ≠ x := by
      simp only [List.mem_filter] at hbmem
      simpa using hbmem.2
    exact fun h => hbx h.symm

lemma indexOf_filter_lt (p : String → Bool) :
    ∀ (l : List String) (a b : String), a ∈ l.filter p → b ∈ l.filter p →
      (l.filter p).indexOf a < (l.filter p).indexOf b → l.indexOf a < l.indexOf b := by
  intro l
  induction l with
  | nil => intro a b ha; simp at ha
  | cons y ys ih =>
    intro a b ha hb hlt
    by_cases hp : p y = true
    · simp only [List.filter_cons, hp, if_true] at ha hb hlt
      by_cases hay : a = y
      · subst hay
        have hba : b ≠ a := by
          intro h; subst h
          rw [List.indexOf_cons_self] at hlt
          omega
        rw [List.indexOf_cons_self]
        rw [List.indexOf_cons_ne ys (fun h => hba h.symm)]
        omega
      · rw [List.indexOf_cons_ne _ (fun h => hay h.symm)] at hlt
        have hby : b ≠ y := by
          intro h; subst h
          rw [List.indexOf_cons_self] at hlt
          omega
        rw [List.indexOf_cons_ne _ (fun h => hby h.symm)] at hlt
        have ha' : a ∈ ys.filter p := by
          rcases List.mem_cons.mp ha with h | h
          · exact absurd h hay
          · exact h
        have hb' : b ∈ ys.filter p := by
          rcases List.mem_cons.mp hb with h | h
          · exact absurd h hby
          · exact h
        have := ih a b ha' hb' (by omega)
        rw [List.indexOf_cons_ne _ (fun h => hay h.symm),
          List.indexOf_cons_ne _ (fun h => hby h.symm)]
        omega
    · simp only [List.filter_cons, hp, if_false] at ha hb hlt
      have hay : a ≠ y := by
        intro h; subst h
        have := (List.mem_filter.mp ha).2
        exact hp this
      have hby : b ≠ y := by
        intro h; subst h
        have := (List.mem_filter.mp hb).2
        exact hp this
      have := ih a b ha hb hlt
      rw [List.indexOf_cons_ne _ (fun h => hay h.symm),
        List.indexOf_cons_ne _ (fun h => hby h.symm)]
      omega

lemma pairwise_dedupFirst : ∀ l : List String,
    (dedupFirst l).Pairwise (fun a b => l.indexOf a < l.indexOf b) := by
  intro l
  induction l using dedupFirst.induct with
  | case1 => simp [dedupFirst]
  | case2 x xs ih =>
    rw [dedupFirst]
    refine List.Pairwise.cons ?_ ?_
    · intro b hb
      have hbmem := (mem_dedupFirst _ b).mp hb
      have hbx : b ≠ x := by
        simp only [List.mem_filter] at hbmem
        simpa using hbmem.2
      rw [List.indexOf_cons_self, List.indexOf_cons_ne _ (fun h => hbx h.symm)]
      omega
    · refine List.Pairwise.imp_of_mem ?_ ih
      intro a b hadf hbdf hab
      have ha := (mem_dedupFirst _ a).mp hadf
      have hb := (mem_dedupFirst _ b).mp hbdf
      have hax : a ≠ x := by
        simp only [List.mem_filter] at ha
        simpa using ha.2
      have hbx : b ≠ x := by
        simp only [List.mem_filter] at hb
        simpa using hb.2
      have := indexOf_filter_lt _ xs a b ha hb hab
      rw [List.indexOf_cons_ne _ (fun h => hax h.symm),
        List.indexOf_cons_ne _ (fun h => hbx h.symm)]
      omega

lemma uniqueIds_eq_dedupFirst (l : List String) :
    uniqueIds l = dedupFirst (l.filter (fun c => c ≠ "")) := by
  rw [uniqueIds, foldl_insertIfAbsent]
  simp

/-! ## Claims -/

/-- C1: the claim says `is_admin(username)` is true exactly when the username
is in the configured `ADMIN_USERS` allow-list, and without an allow-list
match the admin console is not rendered.  The code contradicts this: with an
empty allow-list, the hard-coded username `kkang09` is still granted admin
and the console is rendered for it (line 202's `or username == "kkang09"`
bypass). -/
theorem C1_allowlist_backdoor_eval :
    is_admin [] (some "kkang09") = true ∧
    adminConsoleRendered [] (some "kkang09") = true ∧
    "kkang09" ∉ ([] : List String) := by decide

/-- C7 (confirmed): with authentication enabled and the `credentials` secrets
section absent or an empty dict, `ensure_authenticated` halts with the fatal
configuration error before the login form is shown; with authentication
disabled it returns the anonymous pass-through immediately without showing
the login form. -/
theorem C7_config_gate (s : Secrets) (login : LoginStatus) :
    (authEnabled s = true → credsFalsy s = true →
      ensure_authenticated s login = (.haltedConfig configErrorMsg, false)) ∧
    (authEnabled s = false →
      ensure_authenticated s login = (.anonymous, false)) := by
  constructor
  · intro h1 h2
    simp [ensure_authenticated, h1, h2]
  · intro h1
    simp [ensure_authenticated, h1]

/-- Witness for C7: a concrete enabled-but-storeless configuration halts with
the config error and no login form; a concrete disabled configuration
passes through anonymously with no login form. -/
theorem C7_config_gate_witness :
    ensure_authenticated ⟨some (.pyStr "true"), none⟩ .pending
      = (.haltedConfig configErrorMsg, false) ∧
    ensure_authenticated ⟨none, none⟩ .pending = (.anonymous, false) :=
  ⟨(C7_config_gate ⟨some (.pyStr "true"), none⟩ .pending).1 (by decide) (by decide),
   (C7_config_gate ⟨none, none⟩ .pending).2 (by decide)⟩

/-- C8 (confirmed): `get_channel_stats` on an empty id list returns the empty
mapping, performs zero outbound requests, and constructs no request. -/
theorem C8_empty_input (net : String → List ChanItem) :
    get_channel_stats net [] = ([], 0, none) := rfl

/-- C10: the claim says the thumbnail precedence picks the medium URL whenever
it is present.  The code's `or`-chain treats an empty-string URL as absent:
with `medium.url = ""` present and `high.url` non-empty, the high URL is
rendered instead of the medium one. -/
theorem C10_empty_url_counterexample :
    (⟨some "", some "https://h", none⟩ : Thumbs).medium = some "" ∧
    renderedThumb ⟨some "", some "https://h", none⟩ = some "https://h" := by decide

/-- C10 (amended): the rendered thumbnail is the medium URL if present and
non-empty, else the high URL if present and non-empty, else the default URL
if present and non-empty, else no image is rendered. -/
theorem C10_thumbnail_precedence (m h d : Option String) :
    renderedThumb ⟨m, h, d⟩ =
      if pyTruthyS m then m
      else if pyTruthyS h then h
      else if pyTruthyS d then d
      else none := by
  by_cases hm : pyTruthyS m <;> by_cases hh : pyTruthyS h <;> by_cases hd : pyTruthyS d <;>
    simp [renderedThumb, thumbUrlOf, pyOrS, hm, hh, hd]

/-- C3 (confirmed): starting from a cold cache, the first fetch for region `R`
performs one outbound request; a second fetch within the 10-minute TTL
performs none and returns the cached value, so two calls within the TTL make
exactly one request in total; a fetch after TTL expiry performs a new
request; the refresh action clears both caches unconditionally, and a fetch
right after it performs a new request even within the TTL. -/
theorem C3_cache_ttl {V : Type} (net : String → V) (R : String) (t0 t1 t2 : Nat)
    (statsCache : Cache V)
    (h1 : t1 - t0 < TTL_SECONDS) (h2 : TTL_SECONDS ≤ t2 - t0) :
    (cachedFetch TTL_SECONDS net [] R t0).2.2 = 1 ∧
    (cachedFetch TTL_SECONDS net (cachedFetch TTL_SECONDS net [] R t0).2.1 R t1).2.2 = 0 ∧
    (cachedFetch TTL_SECONDS net (cachedFetch TTL_SECONDS net [] R t0).2.1 R t1).1
      = (cachedFetch TTL_SECONDS net [] R t0).1 ∧
    (cachedFetch TTL_SECONDS net (cachedFetch TTL_SECONDS net [] R t0).2.1 R t2).2.2 = 1 ∧
    refreshCaches (cachedFetch TTL_SECONDS net [] R t0).2.1 statsCache = ([], []) ∧
    (cachedFetch TTL_SECONDS net
      (refreshCaches (cachedFetch TTL_SECONDS net [] R t0).2.1 statsCache).1 R t1).2.2 = 1 := by
  have e0 : cachedFetch TTL_SECONDS net [] R t0 = (net R, [(R, net R, t0)], 1) := by
    simp [cachedFetch, cacheLookup, cacheStore]
  have elook : cacheLookup [(R, net R, t0)] R = some (net R, t0) := by
    simp [cacheLookup, List.find?]
  refine ⟨by rw [e0], ?_, ?_, ?_, by rw [e0]; rfl, ?_⟩
  · rw [e0]
    simp [cachedFetch, elook, h1]
  · rw [e0]
    simp [cachedFetch, elook, h1]
  · rw [e0]
    simp [cachedFetch, elook, Nat.not_lt.mpr h2]
  · rw [e0]
    simp [cachedFetch, cacheLookup, refreshCaches]

/-- Witness for C3: concrete times 0, 100 (inside the TTL) and 600 (expired),
a concrete network function and region. -/
theorem C3_cache_ttl_witness :
    (cachedFetch TTL_SECONDS (fun _ => 7) [] "KR" 0).2.2 = 1 ∧
    (cachedFetch TTL_SECONDS (fun _ => 7)
      (cachedFetch TTL_SECONDS (fun _ => 7) [] "KR" 0).2.1 "KR" 100).2.2 = 0 ∧
    (cachedFetch TTL_SECONDS (fun _ => 7)
      (cachedFetch TTL_SECONDS (fun _ => 7) [] "KR" 0).2.1 "KR" 100).1
      = (cachedFetch TTL_SECONDS (fun _ => 7) [] "KR" 0).1 ∧
    (cachedFetch TTL_SECONDS (fun _ => 7)
      (cachedFetch TTL_SECONDS (fun _ => 7) [] "KR" 0).2.1 "KR" 600).2.2 = 1 ∧
    refreshCaches (cachedFetch TTL_SECONDS (fun _ => 7) [] "KR" 0).2.1
      ([] : Cache Nat) = ([], []) ∧
    (cachedFetch TTL_SECONDS (fun _ => 7)
      (refreshCaches (cachedFetch TTL_SECONDS (fun _ => 7) [] "KR" 0).2.1
        ([] : Cache Nat)).1 "KR" 100).2.2 = 1 :=
  C3_cache_ttl (fun _ => (7 : Nat)) "KR" 0 100 600 [] (by decide) (by decide)

/-- C4: the claim says the outbound `id` parameter contains each distinct id
of the input exactly once in first-appearance order.  The code first drops
falsy (empty-string) ids: for input `["", "a"]` the distinct input id `""`
does not appear in the request at all — the `id` parameter is `"a"`, not
`",a"`. -/
theorem C4_empty_id_counterexample :
    ("" ∈ (["", "a"] : List String)) ∧
    uniqueIds ["", "a"] = ["a"] ∧
    "" ∉ uniqueIds ["", "a"] ∧
    (get_channel_stats (fun _ => []) ["", "a"]).2.2 = some "a" := by decide

/-- C4 (amended): for every non-empty input list, the outbound request's `id`
parameter is the comma-join of a list that contains each distinct non-empty
id of the input exactly once (no duplicates), ordered by first appearance in
the input. -/
theorem C4_request_dedup (net : String → List ChanItem) (l : List String) (h : l ≠ []) :
    (get_channel_stats net l).2.2 = some (String.intercalate "," (uniqueIds l)) ∧
    (uniqueIds l).Nodup ∧
    (∀ x, x ∈ uniqueIds l ↔ (x ∈ l ∧ x ≠ "")) ∧
    (uniqueIds l).Pairwise (fun a b => l.indexOf a < l.indexOf b) := by
  refine ⟨?_, ?_, ?_, ?_⟩
  · have hne : l.isEmpty = false := by
      cases l with
      | nil => exact absurd rfl h
      | cons a as => rfl
    simp [get_channel_stats, hne]
  · rw [uniqueIds_eq_dedupFirst]
    exact nodup_dedupFirst _
  · intro x
    rw [uniqueIds_eq_dedupFirst, mem_dedupFirst, List.mem_filter]
    simp
  · rw [uniqueIds_eq_dedupFirst]
    refine List.Pairwise.imp_of_mem ?_ (pairwise_dedupFirst (l.filter (fun c => c ≠ "")))
    intro a b ha hb hab
    exact indexOf_filter_lt _ l a b
      ((mem_dedupFirst _ a).mp ha) ((mem_dedupFirst _ b).mp hb) hab

/-- Witness for C4: for the concrete duplicate-bearing input
`["a", "b", "a"]` the request's `id` parameter is `"a,b"` and the id list is
duplicate-free. -/
theorem C4_request_dedup_witness :
    (get_channel_stats (fun _ => []) ["a", "b", "a"]).2.2 = some "a,b" ∧
    (uniqueIds ["a", "b", "a"]).Nodup := by
  have h := C4_request_dedup (fun _ => []) ["a", "b", "a"] (by decide)
  exact ⟨h.1.trans (by decide), h.2.1⟩

/-- C5 (confirmed): running `_migrate_plain_passwords` on a store in which
every stored password is already in bcrypt form performs no write and leaves
every user record unchanged, whatever the hasher does. -/
theorem C5_migration_idempotent (hash : String → String) (d : SecretsFile)
    (h : ∀ p ∈ d.usernames, p.2.password.all isBcryptHash = true) :
    migratePlainPasswords hash (some d) = (some d, false) := by
  have key : ∀ p ∈ d.usernames, migrateUser hash p.2 = (p.2, false) := by
    intro p hp
    have hall := h p hp
    cases hpw : p.2.password with
    | none => simp [migrateUser, hpw]
    | some pw =>
      rw [hpw] at hall
      simp only [Option.all_some] at hall
      simp [migrateUser, hpw, hall]
  have hstore : migrateStore hash d = (d, false) := by
    rw [migrateStore]
    simp only [List.map_map]
    rw [Prod.mk.injEq]
    constructor
    · have husers : d.usernames.map ((fun p => (p.1, p.2.1)) ∘ fun p => (p.1, migrateUser hash p.2))
          = d.usernames := by
        rw [List.map_congr_left (g := fun p => p)]
        · exact List.map_id d.usernames
        · intro p hp
          simp [key p hp]
      cases d with
      | mk us admins => simpa using husers
    · rw [List.any_eq_false]
      intro p hp
      obtain ⟨q, hq, rfl⟩ := List.mem_map.mp hp
      simp [key q hq]
  simp [migratePlainPasswords, hstore]

/-- Witness for C5: a concrete one-user store whose password is already a
bcrypt hash is returned unchanged with no write. -/
theorem C5_migration_idempotent_witness :
    migratePlainPasswords id (some migratedFile) = (some migratedFile, false) :=
  C5_migration_idempotent id migratedFile (by decide)

/-- C6 (confirmed): with authentication enabled and a populated credential
section, a submitted login with a wrong password (a `False` verdict from the
authenticator) ends the script run halted at the login prompt with the
visible auth-error message, the login form having been shown, the session
not authenticated, and the credential file untouched (zero writes). -/
theorem C6_wrong_password (s : Secrets) (file : Option SecretsFile) (hash : String → String)
    (h1 : authEnabled s = true) (h2 : credsFalsy s = false) :
    runScript s .failed file hash = (.haltedAuthError authErrorMsg, true, file, 0) := by
  have e : ensure_authenticated s .failed = (.haltedAuthError authErrorMsg, true) := by
    simp [ensure_authenticated, h1, h2]
  rw [runScript, e]

/-- Witness for C6: a concrete enabled configuration with one user and a
concrete credential file; the wrong-password run halts with the auth error
and the file is unchanged. -/
theorem C6_wrong_password_witness :
    runScript sampleSecrets .failed (some migratedFile) id
      = (.haltedAuthError authErrorMsg, true, some migratedFile, 0) :=
  C6_wrong_password sampleSecrets (some migratedFile) id (by decide) (by decide)

/-- C9 (confirmed): a failed channel-stats fetch is caught by the guard,
which falls back to the empty stats map and shows a warning; with that empty
map every rendered row's subscriber field is "-" and the trending list still
renders one row per fetched item. -/
theorem C9_stats_failure_nonfatal (items : List Item) (e : String) :
    channelStatsGuard (.error e) = ([], true) ∧
    (renderPage items []).length = items.length ∧
    (∀ row ∈ renderPage items [], row.subs = "-") := by
  refine ⟨rfl, by simp [renderPage], ?_⟩
  intro row hrow
  simp only [renderPage, List.mem_map] at hrow
  obtain ⟨it, _, rfl⟩ := hrow
  show subsFmt it.snippet.channelId [] = "-"
  cases hcid : it.snippet.channelId with
  | none => rfl
  | some cid =>
    by_cases hc : cid = ""
    · simp [subsFmt, hc]
    · simp [subsFmt, hc, assocLookup]

/-- Witness for C9: a concrete failure message and one-item page; the guard
reports the warning, the row count is preserved, and the rendered row's
subscriber field is "-". -/
theorem C9_stats_failure_nonfatal_witness :
    channelStatsGuard (.error "boom") = ([], true) ∧
    (renderPage [emptyItem] []).length = 1 ∧
    (renderRow [] emptyItem).subs = "-" :=
  ⟨(C9_stats_failure_nonfatal [emptyItem] "boom").1,
   (C9_stats_failure_nonfatal [emptyItem] "boom").2.1,
   (C9_stats_failure_nonfatal [emptyItem] "boom").2.2 (renderRow [] emptyItem)
     (by simp [renderPage])⟩

/-- C2: the claim says every numeric field whose value fails to parse as an
integer is rendered as its raw string form.  That is false for the
subscriber count: when the channels response carries `subscriberCount`
`"abc"`, `get_channel_stats` maps the failed parse to `None` and the row
renders "-", not the raw string. -/
theorem C2_subscriber_counterexample :
    (get_channel_stats (fun _ => [⟨some "ch1", some "abc"⟩]) ["ch1"]).1
      = [("ch1", none)] ∧
    subsFmt (some "ch1")
      (get_channel_stats (fun _ => [⟨some "ch1", some "abc"⟩]) ["ch1"]).1 = "-" ∧
    ("-" : String) ≠ "abc" := by decide

/-- C2 (amended): rendering defaults for absent fields hold as claimed —
title renders the no-title placeholder, channel name the no-channel-info
placeholder, view count "0" (formatted with its unit), like and comment
counts "-", and subscriber count "-"; view, like and comment counts that
fail to parse as integers render their raw string form (with the unit)
instead of erroring; a subscriber count that fails to parse renders "-",
the same as an absent one. -/
theorem C2_field_defaults (item : Item) (m : StatsMap) (v l c cid : String)
    (sub : Option String) :
    (item.snippet.title = none → (renderRow m item).title = "(제목 없음)") ∧
    (item.snippet.channelTitle = none → (renderRow m item).channel = "(채널 정보 없음)") ∧
    (item.statistics.viewCount = none → (renderRow m item).views = "0회") ∧
    (item.statistics.likeCount = none → (renderRow m item).likes = "-") ∧
    (item.statistics.commentCount = none → (renderRow m item).comments = "-") ∧
    (item.snippet.channelId = some cid → assocLookup m cid = none →
      (renderRow m item).subs = "-") ∧
    (parseIntPy v = none → item.statistics.viewCount = some v →
      (renderRow m item).views = v ++ "회") ∧
    (parseIntPy l = none → item.statistics.likeCount = some l →
      (renderRow m item).likes = l ++ "개") ∧
    (parseIntPy c = none → item.statistics.commentCount = some c →
      (renderRow m item).comments = c ++ "개") ∧
    (parseSubscriber sub = none →
      subsFmt (some cid) [(cid, parseSubscriber sub)] = "-") := by
  refine ⟨?_, ?_, ?_, ?_, ?_, ?_, ?_, ?_, ?_, ?_⟩
  · intro h
    simp [renderRow, titleOf, h]
  · intro h
    simp [renderRow, channelOf, h]
  · intro h
    simp [renderRow, viewsFmt, h]
    rfl
  · intro h
    simp [renderRow, likesFmt, h]
  · intro h
    simp [renderRow, commentsFmt, h]
  · intro h1 h2
    by_cases hc : cid = ""
    · simp [renderRow, subsFmt, h1, hc]
    · simp [renderRow, subsFmt, h1, hc, h2]
  · intro h1 h2
    simp [renderRow, viewsFmt, h2, h1]
  · intro h1 h2
    simp [renderRow, likesFmt, h2, h1]
  · intro h1 h2
    simp [renderRow, commentsFmt, h2, h1]
  · intro h
    by_cases hc : cid = ""
    · simp [subsFmt, hc]
    · have hl : assocLookup [(cid, parseSubscriber sub)] cid = some (parseSubscriber sub) := by
        simp [assocLookup, List.find?]
      rw [h] at hl
      simp [subsFmt, hc, h, hl]

/-- Witness for C2: the all-absent item renders every placeholder default,
and the item with non-numeric statistics renders them raw; a non-numeric
subscriber count renders "-". -/
theorem C2_field_defaults_witness :
    (renderRow [] emptyItem).title = "(제목 없음)" ∧
    (renderRow [] emptyItem).channel = "(채널 정보 없음)" ∧
    (renderRow [] emptyItem).views = "0회" ∧
    (renderRow [] emptyItem).likes = "-" ∧
    (renderRow [] emptyItem).comments = "-" ∧
    (renderRow [] rawStatsItem).subs = "-" ∧
    (renderRow [] rawStatsItem).views = "12a회" ∧
    (renderRow [] rawStatsItem).likes = "x1개" ∧
    (renderRow [] rawStatsItem).comments = "x2개" ∧
    subsFmt (some "ch1") [("ch1", parseSubscriber (some "abc"))] = "-" := by
  have he := C2_field_defaults emptyItem [] "x" "x" "x" "c" none
  have hr := C2_field_defaults rawStatsItem [] "12a" "x1" "x2" "ch1" (some "abc")
  exact ⟨he.1 rfl, he.2.1 rfl, he.2.2.1 rfl, he.2.2.2.1 rfl, he.2.2.2.2.1 rfl,
    hr.2.2.2.2.2.1 rfl rfl,
    hr.2.2.2.2.2.2.1 (by decide) rfl,
    hr.2.2.2.2.2.2.2.1 (by decide) rfl,
    hr.2.2.2.2.2.2.2.2.1 (by decide) rfl,
    hr.2.2.2.2.2.2.2.2.2 (by decide)⟩
